import Mathlib

/-!
Shallow embedding of the quiz / registration / bulk-email REST backends
(files `src/unnamed/part_000` and `src/server.js`).

Both files are Express servers over MongoDB via mongoose.  The embedding
models the database as in-memory lists of documents, each HTTP handler as a
pure function from the database (plus the request data and, where the
handler reads the clock, the current time in milliseconds since the epoch)
to a reply consisting of an HTTP status code, the JSON response body, and
the database after the handler ran.  `findOne` / `findById` are modelled as
`List.find?` (first match in insertion order), `save` of an existing
document as an in-place update keyed by the document id, and `save` of a
new document as an append.  Sources of nondeterminism that the handlers do
not control are passed as parameters: the shuffled question order produced
by `questions.sort(() => 0.5 - Math.random())` in `POST /api/quiz/start`,
and the per-recipient outcome of `transporter.sendMail` in
`POST /api/send-bulk-email`.  Request validation performed by the
`express-validator` middleware is represented by a boolean verdict carried
on the request record, since the spec places validation rule evaluation
out of scope (delegated to the validation middleware library).
JavaScript numeric results that the handlers compute (`toFixed(2)`,
integer division by 1000) are modelled in exact integer arithmetic.
-/

namespace QuizApp

/-- Minimal JSON value type for response bodies built by `res.json(...)`.
Numbers appearing in these responses are integers (ids, times, counts);
the percentage is a string because `Number.prototype.toFixed` returns a
string. -/
inductive Json where
  | null : Json
  | bool (b : Bool) : Json
  | num (n : Int) : Json
  | str (s : String) : Json
  | arr (xs : List Json) : Json
  | obj (fields : List (String × Json)) : Json

/-- Field lookup on a JSON object (first binding wins, as in a JS object
literal without duplicate keys). -/
def Json.lookup : Json → String → Option Json
  | .obj fields, key => List.lookup key fields
  | _, _ => none

/-- Element access on a JSON array. -/
def Json.item? : Json → Nat → Option Json
  | .arr xs, i => xs.get? i
  | _, _ => none

/-- True when the body has a field `success` holding a boolean. -/
def hasBoolSuccess (j : Json) : Bool :=
  match j.lookup "success" with
  | some (.bool _) => true
  | _ => false

/-- Serialization of an optional value: a missing / null field renders as
JSON null. -/
def optJson {α : Type} (f : α → Json) : Option α → Json
  | none => Json.null
  | some a => f a

/-- Document of the `Question` collection (`questionSchema`). -/
structure Question where
  qid : Nat
  question : String
  options : List String
  correctAnswer : Int
  active : Bool
deriving DecidableEq

/-- One entry of a sessions `answers` array: a reference to a question, the
selected option index (null until answered) and the correctness flag. -/
structure AnswerEntry where
  questionId : Nat
  selectedAnswer : Option Int
  isCorrect : Bool
deriving DecidableEq

/-- The `status` enum of `quizSessionSchema`. -/
inductive SessionStatus where
  | active : SessionStatus
  | completed : SessionStatus
  | timeout : SessionStatus
deriving DecidableEq

/-- Document of the `QuizSession` collection (`quizSessionSchema`).  Times
are milliseconds since the epoch.  `timeRemaining` is the schema field with
default 1200000; the code never writes it. -/
structure QuizSession where
  sid : Nat
  phoneNumber : String
  fullName : String
  email : String
  startTime : Nat
  timeRemaining : Nat
  answers : List AnswerEntry
  score : Nat
  totalQuestions : Nat
  status : SessionStatus
  completedAt : Option Nat
  timeTaken : Option Nat
deriving DecidableEq

/-- Document of the `Registration` collection (`registrationSchema`). -/
structure Registration where
  rid : Nat
  fullName : String
  gender : String
  phoneNumber : String
  email : Option String
  churchName : Option String
  availableAllStages : Bool
  registrationDate : Nat
  termsAccepted : Bool
deriving DecidableEq

/-- The database state of the quiz server: the three collections it uses. -/
structure DB where
  registrations : List Registration
  questions : List Question
  sessions : List QuizSession
deriving DecidableEq

/-- Model of `Registration.findOne({ phoneNumber })`. -/
def findRegistration (db : DB) (phone : String) : Option Registration :=
  db.registrations.find? (fun r => r.phoneNumber == phone)

/-- Model of `Registration.findById(id)`. -/
def findRegistrationById (db : DB) (rid : Nat) : Option Registration :=
  db.registrations.find? (fun r => r.rid == rid)

/-- Model of `Question.findById(id)`, also used for `populate` resolution of
an `answers.questionId` reference. -/
def findQuestion (db : DB) (qid : Nat) : Option Question :=
  db.questions.find? (fun q => q.qid == qid)

/-- Model of `QuizSession.findById(id)`. -/
def findSessionById (db : DB) (sid : Nat) : Option QuizSession :=
  db.sessions.find? (fun s => s.sid == sid)

/-- Model of `QuizSession.findOne({ phoneNumber })` (any status). -/
def findSessionByPhone (db : DB) (phone : String) : Option QuizSession :=
  db.sessions.find? (fun s => s.phoneNumber == phone)

/-- True for the two terminal statuses, as matched by
`status: { $in: ["completed", "timeout"] }`. -/
def isTerminal (st : SessionStatus) : Bool :=
  st == .completed || st == .timeout

/-- Model of `QuizSession.findOne({ phoneNumber, status: { $in:
["completed", "timeout"] } })`. -/
def findTerminalByPhone (db : DB) (phone : String) : Option QuizSession :=
  db.sessions.find? (fun s => s.phoneNumber == phone && isTerminal s.status)

/-- Model of `QuizSession.findOne({ phoneNumber, status: "active" })`. -/
def findActiveByPhone (db : DB) (phone : String) : Option QuizSession :=
  db.sessions.find? (fun s => s.phoneNumber == phone && s.status == .active)

/-- Model of `session.save()` on an existing session document: replace the
stored document with the given id. -/
def updateSession (db : DB) (sid : Nat) (s' : QuizSession) : DB :=
  { db with sessions := db.sessions.map (fun s => if s.sid == sid then s' else s) }

/-- String rendering of the status enum. -/
def statusToString : SessionStatus → String
  | .active => "active"
  | .completed => "completed"
  | .timeout => "timeout"

/-- Serialization of a full `Question` document (as `populate` embeds it,
`correctAnswer` included). -/
def questionToJson (q : Question) : Json :=
  .obj [("_id", .num (q.qid : Int)),
        ("question", .str q.question),
        ("options", .arr (q.options.map .str)),
        ("correctAnswer", .num q.correctAnswer),
        ("active", .bool q.active)]

/-- Serialization of an `answers` entry without `populate`: `questionId`
stays a bare object id. -/
def answerToJson (a : AnswerEntry) : Json :=
  .obj [("questionId", .num (a.questionId : Int)),
        ("selectedAnswer", optJson .num a.selectedAnswer),
        ("isCorrect", .bool a.isCorrect)]

/-- Serialization of an `answers` entry after `populate("answers.questionId")`:
the reference is replaced by the full question document, or null when the
referenced document does not exist. -/
def answerToJsonPopulated (db : DB) (a : AnswerEntry) : Json :=
  .obj [("questionId", optJson questionToJson (findQuestion db a.questionId)),
        ("selectedAnswer", optJson .num a.selectedAnswer),
        ("isCorrect", .bool a.isCorrect)]

/-- Serialization of a session document, parametric in how the answer
entries render (populated or not). -/
def sessionToJsonWith (answerJson : AnswerEntry → Json) (s : QuizSession) : Json :=
  .obj [("_id", .num (s.sid : Int)),
        ("phoneNumber", .str s.phoneNumber),
        ("fullName", .str s.fullName),
        ("email", .str s.email),
        ("startTime", .num (s.startTime : Int)),
        ("timeRemaining", .num (s.timeRemaining : Int)),
        ("answers", .arr (s.answers.map answerJson)),
        ("score", .num (s.score : Int)),
        ("totalQuestions", .num (s.totalQuestions : Int)),
        ("status", .str (statusToString s.status)),
        ("completedAt", optJson (fun t => .num (t : Int)) s.completedAt),
        ("timeTaken", optJson (fun t => .num (t : Int)) s.timeTaken)]

/-- Session serialization without `populate`. -/
def sessionToJson (s : QuizSession) : Json :=
  sessionToJsonWith answerToJson s

/-- Session serialization with `populate("answers.questionId")` resolved
against the current database. -/
def sessionToJsonPopulated (db : DB) (s : QuizSession) : Json :=
  sessionToJsonWith (answerToJsonPopulated db) s

/-- Serialization of a registration document. -/
def registrationToJson (r : Registration) : Json :=
  .obj [("_id", .num (r.rid : Int)),
        ("fullName", .str r.fullName),
        ("gender", .str r.gender),
        ("phoneNumber", .str r.phoneNumber),
        ("email", optJson .str r.email),
        ("churchName", optJson .str r.churchName),
        ("availableAllStages", .bool r.availableAllStages),
        ("registrationDate", .num (r.registrationDate : Int)),
        ("termsAccepted", .bool r.termsAccepted)]

/-- Model of `((score / totalQuestions) * 100).toFixed(2)` in exact
arithmetic: the value of `score / total * 100` rounded to the nearest
hundredth (ties rounded up, as `toFixed` does for positive values) and
rendered with exactly two decimals.  JavaScript evaluates the quotient in
binary floating point; the rounding is modelled here on the exact rational
value.  Division by zero yields NaN (score 0) or Infinity in JavaScript. -/
def toFixed2Percent (score total : Nat) : String :=
  if total = 0 then
    (if score = 0 then "NaN" else "Infinity")
  else
    let scaled := (score * 10000 + total / 2) / total
    let intPart := scaled / 100
    let fracPart := scaled % 100
    toString intPart ++ "." ++ (if fracPart < 10 then "0" else "") ++ toString fracPart

/-- Result of one handler invocation: HTTP status code, JSON body, and the
database after the handler ran. -/
structure Reply where
  code : Nat
  body : Json
  db : DB

/-- Count of answer entries with a true correctness flag:
`session.answers.filter(a => a.isCorrect).length`. -/
def countCorrect (answers : List AnswerEntry) : Nat :=
  (answers.filter (fun a => a.isCorrect)).length

/-- The field updates `completeQuizSession` applies to a session document:
recompute the score from the correctness flags, stamp the status, the
completion time and the elapsed duration (`now - startTime`). -/
def completeSession (s : QuizSession) (st : SessionStatus) (now : Nat) : QuizSession :=
  { s with status := st,
           score := countCorrect s.answers,
           completedAt := some now,
           timeTaken := some (now - s.startTime) }

/-- Model of the helper `completeQuizSession(sessionId, status)`: look the
session up by id (returning null when absent), apply the completion
updates and save.  Note that it runs on a session of any current status. -/
def completeQuizSession (db : DB) (sid : Nat) (st : SessionStatus) (now : Nat) :
    Option QuizSession × DB :=
  match findSessionById db sid with
  | none => (none, db)
  | some s =>
    let s' := completeSession s st now
    (some s', updateSession db sid s')

/-- Model of `GET /api/quiz/session/:phoneNumber`.  Looks the session up by
phone number (any status), computes the remaining time from the clock, and
when the 20 minutes are exhausted and the session is still active,
completes it with status timeout and returns the updated (re-fetched,
unpopulated) session; otherwise returns the populated session unchanged. -/
def getQuizSession (db : DB) (phone : String) (now : Nat) : Reply :=
  match findSessionByPhone db phone with
  | none =>
    ⟨200, .obj [("success", .bool true),
                ("hasSession", .bool false),
                ("message", .str "No active quiz session found")], db⟩
  | some session =>
    let timeElapsed : Int := (now : Int) - (session.startTime : Int)
    let timeRemaining : Int := max 0 (1200000 - timeElapsed)
    if timeRemaining ≤ 0 ∧ session.status = .active then
      let completed := completeQuizSession db session.sid .timeout now
      ⟨200, .obj [("success", .bool true),
                  ("hasSession", .bool true),
                  ("status", .str "timeout"),
                  ("message", .str "Quiz session has timed out"),
                  ("session", optJson sessionToJson (findSessionById completed.2 session.sid))],
       completed.2⟩
    else
      ⟨200, .obj [("success", .bool true),
                  ("hasSession", .bool true),
                  ("timeRemaining", .num timeRemaining),
                  ("session", sessionToJsonPopulated db session)], db⟩

/-- Model of `POST /api/quiz/start`.  `shuffled` is the output of
`questions.sort(() => 0.5 - Math.random())` applied to the active
questions (an unspecified permutation chosen outside the handler);
`newSid` is the object id Mongo assigns to a newly created session. -/
def startQuiz (db : DB) (phone : String) (now : Nat)
    (shuffled : List Question) (newSid : Nat) : Reply :=
  match findRegistration db phone with
  | none =>
    ⟨404, .obj [("success", .bool false),
                ("message", .str "User not registered")], db⟩
  | some registration =>
    match findTerminalByPhone db phone with
    | some existingSession =>
      ⟨400, .obj [("success", .bool false),
                  ("message", .str "Quiz attempt already completed"),
                  ("session", sessionToJson existingSession)], db⟩
    | none =>
      match findActiveByPhone db phone with
      | some activeSession =>
        ⟨200, .obj [("success", .bool true),
                    ("message", .str "Resuming existing quiz session"),
                    ("session", sessionToJson activeSession)], db⟩
      | none =>
        let session : QuizSession :=
          { sid := newSid,
            phoneNumber := phone,
            fullName := registration.fullName,
            email := registration.email.getD "",
            startTime := now,
            timeRemaining := 1200000,
            answers := shuffled.map (fun q => ⟨q.qid, none, false⟩),
            score := 0,
            totalQuestions := shuffled.length,
            status := .active,
            completedAt := none,
            timeTaken := none }
        ⟨200, .obj [("success", .bool true),
                    ("message", .str "Quiz session started successfully"),
                    ("session", sessionToJson session)],
         { db with sessions := db.sessions ++ [session] }⟩

/-- The per-question view `GET /api/quiz/questions/:sessionId` builds for an
active session: id, text, options and the currently selected answer, with
no `correctAnswer` field.  Returns none when the populated reference is
null (the JavaScript would throw on `answer.questionId._id`). -/
def questionView (db : DB) (a : AnswerEntry) : Option Json :=
  (findQuestion db a.questionId).map (fun q =>
    .obj [("_id", .num (q.qid : Int)),
          ("question", .str q.question),
          ("options", .arr (q.options.map .str)),
          ("selectedAnswer", optJson .num a.selectedAnswer)])

/-- Model of `GET /api/quiz/questions/:sessionId`.  For a non-active
session returns an empty question list plus the populated session; for an
active session returns the stripped question views plus the populated
session.  A dangling question reference makes the handler throw, which the
catch-all turns into a 500. -/
def getQuizQuestions (db : DB) (sid : Nat) : Reply :=
  match findSessionById db sid with
  | none =>
    ⟨404, .obj [("success", .bool false),
                ("message", .str "Quiz session not found")], db⟩
  | some session =>
    if session.status ≠ .active then
      ⟨200, .obj [("success", .bool true),
                  ("questions", .arr []),
                  ("session", sessionToJsonPopulated db session),
                  ("message", .str "Quiz session is no longer active")], db⟩
    else
      match session.answers.mapM (questionView db) with
      | none =>
        ⟨500, .obj [("success", .bool false),
                    ("message", .str "Error fetching quiz questions")], db⟩
      | some questionList =>
        ⟨200, .obj [("success", .bool true),
                    ("questions", .arr questionList),
                    ("session", sessionToJsonPopulated db session)], db⟩

/-- Update applied by `POST /api/quiz/answer` at the first entry whose
`questionId` matches (the index `findIndex` returns): store the selected
index and the correctness flag, leaving every other entry unchanged. -/
def updateFirstAnswer (answers : List AnswerEntry) (qid : Nat) (sel : Int) (correct : Bool) :
    List AnswerEntry :=
  match answers with
  | [] => []
  | a :: rest =>
    if a.questionId == qid then
      { a with selectedAnswer := some sel, isCorrect := correct } :: rest
    else
      a :: updateFirstAnswer rest qid sel correct

/-- Model of `POST /api/quiz/answer`.  Rejects when the session is absent
(404), not active (400), or the question is not among the session answer
entries (400); otherwise grades against the stored `correctAnswer`, records
the answer and reports the correctness flag.  The handler reads no clock:
elapsed time never affects acceptance.  A question id that is in the
session but not in the questions collection makes the JavaScript throw on
`question.correctAnswer` (500 via the catch-all). -/
def submitAnswer (db : DB) (sid : Nat) (qid : Nat) (sel : Int) : Reply :=
  match findSessionById db sid with
  | none =>
    ⟨404, .obj [("success", .bool false),
                ("message", .str "Quiz session not found")], db⟩
  | some session =>
    if session.status ≠ .active then
      ⟨400, .obj [("success", .bool false),
                  ("message", .str "Quiz session is not active")], db⟩
    else if ¬ session.answers.any (fun a => a.questionId == qid) then
      ⟨400, .obj [("success", .bool false),
                  ("message", .str "Question not found in session")], db⟩
    else
      match findQuestion db qid with
      | none =>
        ⟨500, .obj [("success", .bool false),
                    ("message", .str "Error submitting answer")], db⟩
      | some question =>
        let isCorrect := sel == question.correctAnswer
        let session' :=
          { session with answers := updateFirstAnswer session.answers qid sel isCorrect }
        ⟨200, .obj [("success", .bool true),
                    ("message", .str "Answer submitted successfully"),
                    ("isCorrect", .bool isCorrect)],
         updateSession db sid session'⟩

/-- Model of `POST /api/quiz/submit`: run `completeQuizSession(sessionId,
"completed")` whatever the current status is, 404 when the session does not
exist. -/
def submitQuiz (db : DB) (sid : Nat) (now : Nat) : Reply :=
  match completeQuizSession db sid .completed now with
  | (none, _) =>
    ⟨404, .obj [("success", .bool false),
                ("message", .str "Quiz session not found")], db⟩
  | (some s', db') =>
    ⟨200, .obj [("success", .bool true),
                ("message", .str "Quiz submitted successfully"),
                ("session", sessionToJson s')], db'⟩

/-- The projection `GET /api/quiz/results` applies to each terminal
session: selected fields plus the percentage string
`((score / totalQuestions) * 100).toFixed(2)` and the elapsed seconds
`Math.floor(timeTaken / 1000)` (NaN, serialized as null, when `timeTaken`
is absent). -/
def resultEntryJson (s : QuizSession) : Json :=
  .obj [("fullName", .str s.fullName),
        ("phoneNumber", .str s.phoneNumber),
        ("email", .str s.email),
        ("score", .num (s.score : Int)),
        ("totalQuestions", .num (s.totalQuestions : Int)),
        ("percentage", .str (toFixed2Percent s.score s.totalQuestions)),
        ("timeTaken", optJson (fun t => .num ((t / 1000 : Nat) : Int)) s.timeTaken),
        ("completedAt", optJson (fun t => .num (t : Int)) s.completedAt),
        ("status", .str (statusToString s.status))]

/-- Model of `GET /api/quiz/results`: all terminal sessions, sorted by
completion time descending, each projected through `resultEntryJson`. -/
def getQuizResults (db : DB) : Reply :=
  let results :=
    (db.sessions.filter (fun s => isTerminal s.status)).mergeSort
      (fun a b => b.completedAt.getD 0 ≤ a.completedAt.getD 0)
  ⟨200, .obj [("success", .bool true),
              ("count", .num (results.length : Int)),
              ("data", .arr (results.map resultEntryJson))], db⟩

/-- Model of `GET /api/quiz/result/:phoneNumber`: the terminal session of
that phone number with the same projection plus the fully disclosed
answer review (question, options, correct answer, selection, flag).  A
dangling question reference throws (500). -/
def getQuizResult (db : DB) (phone : String) : Reply :=
  match findTerminalByPhone db phone with
  | none =>
    ⟨404, .obj [("success", .bool false),
                ("message", .str "No quiz result found for this user")], db⟩
  | some result =>
    match result.answers.mapM (fun a =>
        (findQuestion db a.questionId).map (fun q =>
          Json.obj [("question", .str q.question),
                    ("options", .arr (q.options.map .str)),
                    ("correctAnswer", .num q.correctAnswer),
                    ("selectedAnswer", optJson .num a.selectedAnswer),
                    ("isCorrect", .bool a.isCorrect)])) with
    | none =>
      ⟨500, .obj [("success", .bool false),
                  ("message", .str "Error fetching quiz result")], db⟩
    | some answerList =>
      ⟨200, .obj [("success", .bool true),
                  ("data", .obj
          [("fullName", .str result.fullName),
           ("phoneNumber", .str result.phoneNumber),
           ("email", .str result.email),
           ("score", .num (result.score : Int)),
           ("totalQuestions", .num (result.totalQuestions : Int)),
           ("percentage", .str (toFixed2Percent result.score result.totalQuestions)),
           ("timeTaken", optJson (fun t => .num ((t / 1000 : Nat) : Int)) result.timeTaken),
           ("completedAt", optJson (fun t => .num (t : Int)) result.completedAt),
           ("status", .str (statusToString result.status)),
           ("answers", .arr answerList)])], db⟩

/-- A registration request body after JSON parsing.  `validationOk` is the
verdict of the `validateRegistration` express-validator chain, which the
spec places out of scope (delegated input validation); the handler only
branches on whether `validationResult(req)` is empty. -/
structure RegRequest where
  fullName : String
  gender : String
  phoneNumber : String
  email : Option String
  churchName : Option String
  availableAllStages : Bool
  termsAccepted : Bool
  validationOk : Bool
deriving DecidableEq

/-- Model of `GET /api/registrations`: every registration, newest first. -/
def listRegistrations (db : DB) : Reply :=
  let regs := db.registrations.mergeSort
    (fun a b => b.registrationDate ≤ a.registrationDate)
  ⟨200, .obj [("success", .bool true),
              ("count", .num (regs.length : Int)),
              ("data", .arr (regs.map registrationToJson))], db⟩

/-- Model of `POST /api/login`: fetch the registration by phone number. -/
def loginByPhone (db : DB) (phone : String) : Reply :=
  match findRegistration db phone with
  | some existingRegistration =>
    ⟨200, .obj [("success", .bool true),
                ("message", .str "Login successful"),
                ("data", registrationToJson existingRegistration)], db⟩
  | none =>
    ⟨404, .obj [("success", .bool false),
                ("message", .str "This phone number is not registered yet")], db⟩

/-- Model of `GET /api/registrations/:id`. -/
def getRegistration (db : DB) (rid : Nat) : Reply :=
  match findRegistrationById db rid with
  | none =>
    ⟨404, .obj [("success", .bool false),
                ("message", .str "Registration not found")], db⟩
  | some registration =>
    ⟨200, .obj [("success", .bool true),
                ("data", registrationToJson registration)], db⟩

/-- Model of `POST /api/registrations`: validation failure is a 400, a
phone number that already has a registration is a 400 with nothing stored,
otherwise the document is created (201). -/
def postRegistration (db : DB) (req : RegRequest) (now : Nat) (newRid : Nat) : Reply :=
  if ¬ req.validationOk then
    ⟨400, .obj [("success", .bool false),
                ("message", .str "Validation failed")], db⟩
  else
    match findRegistration db req.phoneNumber with
    | some _ =>
      ⟨400, .obj [("success", .bool false),
                  ("message", .str "Phone number already registered")], db⟩
    | none =>
      let registration : Registration :=
        { rid := newRid,
          fullName := req.fullName,
          gender := req.gender,
          phoneNumber := req.phoneNumber,
          email := req.email,
          churchName := req.churchName,
          availableAllStages := req.availableAllStages,
          registrationDate := now,
          termsAccepted := req.termsAccepted }
      ⟨201, .obj [("success", .bool true),
                  ("message", .str "Registration successful!"),
                  ("data", registrationToJson registration)],
       { db with registrations := db.registrations ++ [registration] }⟩

/-- Field update `findByIdAndUpdate(id, req.body)` applies: set the fields
present in the validated body, keeping the id and the creation date. -/
def applyRegUpdate (r : Registration) (req : RegRequest) : Registration :=
  { r with fullName := req.fullName,
           gender := req.gender,
           phoneNumber := req.phoneNumber,
           email := req.email,
           churchName := req.churchName,
           availableAllStages := req.availableAllStages,
           termsAccepted := req.termsAccepted }

/-- Model of `PUT /api/registrations/:id`. -/
def putRegistration (db : DB) (rid : Nat) (req : RegRequest) : Reply :=
  if ¬ req.validationOk then
    ⟨400, .obj [("success", .bool false),
                ("message", .str "Validation failed")], db⟩
  else
    match findRegistrationById db rid with
    | none =>
      ⟨404, .obj [("success", .bool false),
                  ("message", .str "Registration not found")], db⟩
    | some r =>
      let r' := applyRegUpdate r req
      ⟨200, .obj [("success", .bool true),
                  ("message", .str "Registration updated successfully"),
                  ("data", registrationToJson r')],
       { db with registrations :=
           db.registrations.map (fun x => if x.rid == rid then r' else x) }⟩

/-- Model of `DELETE /api/registrations/:id`. -/
def deleteRegistration (db : DB) (rid : Nat) : Reply :=
  match findRegistrationById db rid with
  | none =>
    ⟨404, .obj [("success", .bool false),
                ("message", .str "Registration not found")], db⟩
  | some _ =>
    ⟨200, .obj [("success", .bool true),
                ("message", .str "Registration deleted successfully")],
     { db with registrations := db.registrations.filter (fun x => ¬ x.rid == rid) }⟩

/-- Model of `GET /health`: note the body is `{ status: ... }`, with no
`success` field. -/
def healthCheck (db : DB) : Reply :=
  ⟨200, .obj [("status", .str "Server is running!")], db⟩

/-- The routes of the quiz server, each constructor carrying the request
data the handler consumes (and, for quiz start, the shuffled question
order and fresh object id chosen outside the handler). -/
inductive Route where
  | listRegistrations : Route
  | login (phone : String) : Route
  | getRegistration (rid : Nat) : Route
  | postRegistration (req : RegRequest) (newRid : Nat) : Route
  | putRegistration (rid : Nat) (req : RegRequest) : Route
  | deleteRegistration (rid : Nat) : Route
  | quizSession (phone : String) : Route
  | quizStart (phone : String) (shuffled : List Question) (newSid : Nat) : Route
  | quizQuestions (sid : Nat) : Route
  | quizAnswer (sid : Nat) (qid : Nat) (sel : Int) : Route
  | quizSubmit (sid : Nat) : Route
  | quizResults : Route
  | quizResult (phone : String) : Route
  | health : Route
deriving DecidableEq

/-- Dispatcher over every modelled route of the quiz server. -/
def handle (db : DB) (now : Nat) : Route → Reply
  | .listRegistrations => listRegistrations db
  | .login phone => loginByPhone db phone
  | .getRegistration rid => getRegistration db rid
  | .postRegistration req newRid => postRegistration db req now newRid
  | .putRegistration rid req => putRegistration db rid req
  | .deleteRegistration rid => deleteRegistration db rid
  | .quizSession phone => getQuizSession db phone now
  | .quizStart phone shuffled newSid => startQuiz db phone now shuffled newSid
  | .quizQuestions sid => getQuizQuestions db sid
  | .quizAnswer sid qid sel => submitAnswer db sid qid sel
  | .quizSubmit sid => submitQuiz db sid now
  | .quizResults => getQuizResults db
  | .quizResult phone => getQuizResult db phone
  | .health => healthCheck db

end QuizApp

namespace BulkMail

open QuizApp (Json optJson)

/-- One entry of the validated `recipients` array of a
`POST /api/send-bulk-email` request (`id` is read for the log but never
validated). -/
structure Recipient where
  email : String
  name : String
  id : Option String
deriving DecidableEq

/-- Outcome of one `transporter.sendMail` call, decided by the external
mail transport. -/
inductive SendOutcome where
  | sent (messageId : String) : SendOutcome
  | failed (err : String) : SendOutcome
deriving DecidableEq

/-- One element of `emailResults` as the loop pushes it: success entries
carry a `messageId`, failure entries carry the error text. -/
structure SendResult where
  email : String
  name : String
  registrationId : Option String
  status : String
  error : Option String
  messageId : Option String
deriving DecidableEq

/-- Model of the sequential sending loop of `POST /api/send-bulk-email`:
one entry per recipient in request order, counting successes and
failures. -/
def sendLoop (send : Recipient → SendOutcome) :
    List Recipient → List SendResult × Nat × Nat
  | [] => ([], 0, 0)
  | r :: rest =>
    let tail := sendLoop send rest
    match send r with
    | .sent mid =>
      (⟨r.email, r.name, r.id, "sent", none, some mid⟩ :: tail.1,
       tail.2.1 + 1, tail.2.2)
    | .failed err =>
      (⟨r.email, r.name, r.id, "failed", some err, none⟩ :: tail.1,
       tail.2.1, tail.2.2 + 1)

/-- A recipient entry as persisted by `emailLogSchema`: mongoose keeps only
the schema fields, dropping `messageId`. -/
structure LogRecipient where
  email : String
  name : String
  registrationId : Option String
  status : String
  error : Option String
deriving DecidableEq

/-- Cast of a pushed result to the persisted schema shape. -/
def toLogRecipient (res : SendResult) : LogRecipient :=
  ⟨res.email, res.name, res.registrationId, res.status, res.error⟩

/-- Document of the `EmailLog` collection. -/
structure EmailLogDoc where
  subject : String
  message : String
  recipients : List LogRecipient
  sentBy : String
  sentAt : Nat
  totalRecipients : Nat
  successCount : Nat
  failureCount : Nat
deriving DecidableEq

/-- A bulk email request body; `validationOk` is the verdict of the
delegated `validateBulkEmail` chain (nonempty subject and message, at
least one recipient, each with a valid email and nonempty name). -/
structure BulkRequest where
  subject : String
  message : String
  recipients : List Recipient
  validationOk : Bool

/-- Serialization of a pushed result entry for the response `data.results`
array. -/
def resultJson (res : SendResult) : Json :=
  .obj [("email", .str res.email),
        ("name", .str res.name),
        ("registrationId", optJson .str res.registrationId),
        ("status", .str res.status),
        ("error", optJson .str res.error),
        ("messageId", optJson .str res.messageId)]

/-- Result of the bulk email handler: HTTP code, body, and the EmailLog
document saved (none when the handler returned before the sending loop). -/
structure MailReply where
  code : Nat
  body : Json
  savedLog : Option EmailLogDoc

/-- The `data` object shared by all three post-loop response branches. -/
def bulkDataJson (total successCount failureCount : Nat)
    (emailResults : List SendResult) : Json :=
  .obj [("totalRecipients", .num (total : Int)),
        ("successCount", .num (successCount : Int)),
        ("failureCount", .num (failureCount : Int)),
        ("results", .arr (emailResults.map resultJson))]

/-- Model of `POST /api/send-bulk-email`.  `hasConfig` is whether
`EMAIL_USER` and a password variable are set, `verifyOk` the outcome of
`transporter.verify()`, `send` the per-recipient outcome of
`transporter.sendMail`.  After the loop the aggregate log is saved and the
response is 200 with `success: true` when at least one send succeeded,
500 with `success: false` when every send failed. -/
def sendBulkEmail (hasConfig verifyOk : Bool) (send : Recipient → SendOutcome)
    (req : BulkRequest) (now : Nat) : MailReply :=
  if ¬ req.validationOk then
    ⟨400, .obj [("success", .bool false),
                ("message", .str "Validation failed")], none⟩
  else if ¬ hasConfig then
    ⟨500, .obj [("success", .bool false),
                ("message", .str "Email configuration not found. Please check your environment variables.")],
     none⟩
  else if ¬ verifyOk then
    ⟨500, .obj [("success", .bool false),
                ("message", .str "Email server configuration error. Please check your email settings.")],
     none⟩
  else
    let loop := sendLoop send req.recipients
    let emailResults := loop.1
    let successCount := loop.2.1
    let failureCount := loop.2.2
    let total := req.recipients.length
    let log : EmailLogDoc :=
      ⟨req.subject, req.message, emailResults.map toLogRecipient,
       "admin", now, total, successCount, failureCount⟩
    if successCount = total then
      ⟨200, .obj [("success", .bool true),
                  ("message", .str ("Successfully sent emails to all "
                     ++ toString successCount ++ " recipients")),
                  ("data", bulkDataJson total successCount failureCount emailResults)],
       some log⟩
    else if successCount > 0 then
      ⟨200, .obj [("success", .bool true),
                  ("message", .str ("Sent emails to " ++ toString successCount
                     ++ " of " ++ toString total ++ " recipients. "
                     ++ toString failureCount ++ " failed.")),
                  ("data", bulkDataJson total successCount failureCount emailResults)],
       some log⟩
    else
      ⟨500, .obj [("success", .bool false),
                  ("message", .str "Failed to send emails to all recipients"),
                  ("data", bulkDataJson total successCount failureCount emailResults)],
       some log⟩

/-- Serialization of a persisted log recipient entry. -/
def logRecipientJson (e : LogRecipient) : Json :=
  .obj [("email", .str e.email),
        ("name", .str e.name),
        ("registrationId", optJson .str e.registrationId),
        ("status", .str e.status),
        ("error", optJson .str e.error)]

/-- Serialization of a persisted EmailLog document. -/
def emailLogJson (l : EmailLogDoc) : Json :=
  .obj [("subject", .str l.subject),
        ("message", .str l.message),
        ("recipients", .arr (l.recipients.map logRecipientJson)),
        ("sentBy", .str l.sentBy),
        ("sentAt", .num (l.sentAt : Int)),
        ("totalRecipients", .num (l.totalRecipients : Int)),
        ("successCount", .num (l.successCount : Int)),
        ("failureCount", .num (l.failureCount : Int))]

/-- Model of `GET /api/email-logs`: latest 50 logs, newest first. -/
def getEmailLogs (logs : List EmailLogDoc) : MailReply :=
  let sorted := (logs.mergeSort (fun a b => b.sentAt ≤ a.sentAt)).take 50
  ⟨200, .obj [("success", .bool true),
              ("count", .num (sorted.length : Int)),
              ("data", .arr (sorted.map emailLogJson))], none⟩

/-- Model of `GET /api/test-email-config`.  `emailService`, `emailUser` and
`smtpHost` mirror the environment variables the success branch echoes. -/
def testEmailConfig (hasConfig verifyOk : Bool)
    (emailService : Option String) (emailUser : String)
    (smtpHost : Option String) : MailReply :=
  if ¬ hasConfig then
    ⟨400, .obj [("success", .bool false),
                ("message", .str "Email configuration not found in environment variables")],
     none⟩
  else if ¬ verifyOk then
    ⟨500, .obj [("success", .bool false),
                ("message", .str "Email configuration error")], none⟩
  else
    ⟨200, .obj [("success", .bool true),
                ("message", .str "Email configuration is valid"),
                ("config", .obj
        [("service", .str (emailService.getD "SMTP")),
         ("user", .str emailUser),
         ("host", .str (smtpHost.getD "Not specified"))])], none⟩

/-- The sending loop yields one result per recipient in request order,
every result is marked sent or failed, and the two counters partition the
recipient list. -/
theorem sendLoop_spec (send : Recipient → SendOutcome) (R : List Recipient) :
    (sendLoop send R).1.length = R.length ∧
    (sendLoop send R).1.map (fun e => e.email) = R.map (fun r => r.email) ∧
    (sendLoop send R).1.map (fun e => e.name) = R.map (fun r => r.name) ∧
    (∀ e ∈ (sendLoop send R).1, e.status = "sent" ∨ e.status = "failed") ∧
    (sendLoop send R).2.1 + (sendLoop send R).2.2 = R.length := by
  induction R with
  | nil => simp [sendLoop]
  | cons r rest ih =>
    obtain ⟨h1, h2, h3, h4, h5⟩ := ih
    cases hsr : send r with
    | sent mid =>
      simp only [sendLoop, hsr]
      refine ⟨by simp [h1], by simp [h2], by simp [h3], ?_, by simp; omega⟩
      intro e he
      rcases List.mem_cons.mp he with he' | he'
      · subst he'
        left
        rfl
      · exact h4 e he'
    | failed err =>
      simp only [sendLoop, hsr]
      refine ⟨by simp [h1], by simp [h2], by simp [h3], ?_, by simp; omega⟩
      intro e he
      rcases List.mem_cons.mp he with he' | he'
      · subst he'
        right
        rfl
      · exact h4 e he'

/-- C10: when a bulk email request reaches the sending loop, the persisted
EmailLog has exactly one recipient entry per requested recipient in the
same order, each marked sent or failed, `totalRecipients` equal to the
request list length, `successCount + failureCount = totalRecipients`, and
the HTTP response has `success: true` exactly when at least one send
succeeded. -/
theorem bulk_email_log_invariants (send : Recipient → SendOutcome)
    (req : BulkRequest) (now : Nat)
    (hval : req.validationOk = true) (hne : req.recipients ≠ []) :
    ∃ log : EmailLogDoc,
      (sendBulkEmail true true send req now).savedLog = some log ∧
      log.recipients.length = req.recipients.length ∧
      log.recipients.map (fun e => e.email) = req.recipients.map (fun r => r.email) ∧
      log.recipients.map (fun e => e.name) = req.recipients.map (fun r => r.name) ∧
      (∀ e ∈ log.recipients, e.status = "sent" ∨ e.status = "failed") ∧
      log.totalRecipients = req.recipients.length ∧
      log.successCount + log.failureCount = log.totalRecipients ∧
      ((sendBulkEmail true true send req now).body.lookup "success"
          = some (.bool true) ↔ 0 < log.successCount) := by
  obtain ⟨h1, h2, h3, h4, h5⟩ := sendLoop_spec send req.recipients
  have hlen : 0 < req.recipients.length := List.length_pos.mpr hne
  unfold sendBulkEmail
  rw [if_neg (by simp [hval]), if_neg (by simp), if_neg (by simp)]
  dsimp only
  by_cases hall : (sendLoop send req.recipients).2.1 = req.recipients.length
  · rw [if_pos hall]
    refine ⟨_, rfl, by simpa using h1,
      by simpa [List.map_map, Function.comp, toLogRecipient] using h2,
      by simpa [List.map_map, Function.comp, toLogRecipient] using h3,
      ?_, rfl, h5, ?_⟩
    · intro e he
      rcases List.mem_map.mp he with ⟨res, hres, he'⟩
      subst he'
      exact h4 res hres
    · simp only [Json.lookup, List.lookup]
      simp
      omega
  · rw [if_neg hall]
    by_cases hpos : 0 < (sendLoop send req.recipients).2.1
    · rw [if_pos hpos]
      refine ⟨_, rfl, by simpa using h1,
        by simpa [List.map_map, Function.comp, toLogRecipient] using h2,
        by simpa [List.map_map, Function.comp, toLogRecipient] using h3,
        ?_, rfl, h5, ?_⟩
      · intro e he
        rcases List.mem_map.mp he with ⟨res, hres, he'⟩
        subst he'
        exact h4 res hres
      · simp only [Json.lookup, List.lookup]
        simp [hpos]
    · rw [if_neg hpos]
      have hz : (sendLoop send req.recipients).2.1 = 0 := by omega
      refine ⟨_, rfl, by simpa using h1,
        by simpa [List.map_map, Function.comp, toLogRecipient] using h2,
        by simpa [List.map_map, Function.comp, toLogRecipient] using h3,
        ?_, rfl, h5, ?_⟩
      · intro e he
        rcases List.mem_map.mp he with ⟨res, hres, he'⟩
        subst he'
        exact h4 res hres
      · simp only [Json.lookup, List.lookup]
        simp [hz]

/-- A concrete bulk email request with one recipient. -/
def bulkReq : BulkRequest :=
  ⟨"Update", "Hello", [⟨"a@example.com", "A", none⟩], true⟩

/-- A transport in which every send succeeds. -/
def bulkSendOk : Recipient → SendOutcome := fun _ => .sent "mid-1"

theorem bulk_email_log_invariants_witness :
    bulkReq.validationOk = true ∧ bulkReq.recipients ≠ [] ∧
    ∃ log : EmailLogDoc,
      (sendBulkEmail true true bulkSendOk bulkReq 0).savedLog = some log ∧
      log.recipients.length = bulkReq.recipients.length ∧
      log.recipients.map (fun e => e.email) = bulkReq.recipients.map (fun r => r.email) ∧
      log.recipients.map (fun e => e.name) = bulkReq.recipients.map (fun r => r.name) ∧
      (∀ e ∈ log.recipients, e.status = "sent" ∨ e.status = "failed") ∧
      log.totalRecipients = bulkReq.recipients.length ∧
      log.successCount + log.failureCount = log.totalRecipients ∧
      ((sendBulkEmail true true bulkSendOk bulkReq 0).body.lookup "success"
          = some (.bool true) ↔ 0 < log.successCount) :=
  ⟨rfl, by decide,
   bulk_email_log_invariants bulkSendOk bulkReq 0 rfl (by decide)⟩

end BulkMail

namespace QuizApp

/-- Distinct object ids across stored sessions (Mongo guarantees `_id`
uniqueness). -/
def distinctSids (db : DB) : Prop :=
  db.sessions.Pairwise (fun a b => a.sid ≠ b.sid)

/-- At most one session per phone number, the invariant `POST
/api/quiz/start` maintains: a new session is only created when the phone
number has neither an active nor a terminal session, and every status is
one of those. -/
def distinctPhones (db : DB) : Prop :=
  db.sessions.Pairwise (fun a b => a.phoneNumber ≠ b.phoneNumber)

/-- Number of answer entries that have been answered (a selected index is
stored). -/
def answeredCount (answers : List AnswerEntry) : Nat :=
  (answers.filter (fun a => a.selectedAnswer.isSome)).length

/-- Every question referenced from the answer entries of a session exists
in the questions collection (sessions are created from stored questions
and the quiz server never deletes questions). -/
def sessionRefsExist (db : DB) (s : QuizSession) : Prop :=
  ∀ a ∈ s.answers, (findQuestion db a.questionId).isSome

/-- Empty database, used to instantiate closed statements. -/
def emptyDB : DB := ⟨[], [], []⟩

/-- Two of the seeded quiz questions. -/
def sampleQuestionA : Question :=
  ⟨1, "What are the names of the two sons of Moses?",
   ["Gershom and Eliezer", "Manasseh and Ephraim", "Nadab and Abihu"], 0, true⟩

def sampleQuestionB : Question :=
  ⟨2, "Who was the minister of Moses?", ["Aaron", "Joshua", "Miriam"], 1, true⟩

/-- A stored registration. -/
def sampleReg : Registration :=
  ⟨1, "Ada Obi", "Female", "08031234567", some "ada@example.com", none, true, 100, true⟩

theorem find?_map_update (l : List QuizSession) (sid : Nat) (s' : QuizSession)
    (hs : s'.sid = sid) (a : QuizSession)
    (h : l.find? (fun s => s.sid == sid) = some a) :
    (l.map (fun s => if s.sid == sid then s' else s)).find? (fun s => s.sid == sid)
      = some s' := by
  induction l with
  | nil => simp at h
  | cons x xs ih =>
    by_cases hx : x.sid = sid
    · simp [List.find?_cons, hx, hs]
    · rw [List.find?_cons_of_neg _ (by simp [hx])] at h
      simp only [List.map_cons, if_neg (by simp [hx] : ¬ (x.sid == sid) = true)]
      rw [List.find?_cons_of_neg _ (by simp [hx])]
      exact ih h

/-- Saving a session back under its own id makes the by-id lookup return
the saved document. -/
theorem findSessionById_updateSession (db : DB) (sid : Nat) (s' : QuizSession)
    (hs : s'.sid = sid) (a : QuizSession) (h : findSessionById db sid = some a) :
    findSessionById (updateSession db sid s') sid = some s' :=
  find?_map_update db.sessions sid s' hs a h

theorem find?_of_mem_distinct (l : List QuizSession) (s : QuizSession)
    (hdist : l.Pairwise (fun a b => a.sid ≠ b.sid)) (hmem : s ∈ l) :
    l.find? (fun x => x.sid == s.sid) = some s := by
  induction l with
  | nil => simp at hmem
  | cons x xs ih =>
    rcases List.mem_cons.mp hmem with he | hmem'
    · subst he
      simp [List.find?_cons]
    · have hx : x.sid ≠ s.sid :=
        (List.pairwise_cons.mp hdist).1 s hmem'
      rw [List.find?_cons_of_neg _ (by simp [hx])]
      exact ih (List.pairwise_cons.mp hdist).2 hmem'

/-- With unique session ids, a stored session is what the by-id lookup
returns for its id. -/
theorem findSessionById_of_mem (db : DB) (s : QuizSession)
    (hdist : distinctSids db) (hmem : s ∈ db.sessions) :
    findSessionById db s.sid = some s :=
  find?_of_mem_distinct db.sessions s hdist hmem

/-- Under the one-session-per-phone invariant, a phone number with an
active session has no terminal session. -/
theorem no_terminal_of_active (db : DB) (phone : String)
    (hdist : distinctPhones db) (s : QuizSession)
    (hs : findActiveByPhone db phone = some s) :
    findTerminalByPhone db phone = none := by
  cases ht : findTerminalByPhone db phone with
  | none => rfl
  | some t =>
    exfalso
    have hmem_s := List.mem_of_find?_eq_some hs
    have hp_s := List.find?_some hs
    have hmem_t := List.mem_of_find?_eq_some ht
    have hp_t := List.find?_some ht
    simp only [Bool.and_eq_true, beq_iff_eq] at hp_s hp_t
    have hst : s.status = .active := by
      have := hp_s.2
      simpa [beq_iff_eq] using this
    have htt : isTerminal t.status = true := hp_t.2
    have hne : s ≠ t := by
      intro he
      rw [← he] at htt
      rw [hst] at htt
      simp [isTerminal] at htt
    have hsym : Symmetric (fun a b : QuizSession => a.phoneNumber ≠ b.phoneNumber) :=
      fun a b h => fun he => h he.symm
    have := (List.Pairwise.forall hsym hdist) hmem_s hmem_t hne
    exact this (hp_s.1.trans hp_t.1.symm)

/-- The answer update of `POST /api/quiz/answer` rewrites exactly the first
matching entry. -/
theorem find?_updateFirstAnswer (l : List AnswerEntry) (qid : Nat) (sel : Int) (c : Bool) :
    (updateFirstAnswer l qid sel c).find? (fun a => a.questionId == qid)
      = (l.find? (fun a => a.questionId == qid)).map
          (fun a => { a with selectedAnswer := some sel, isCorrect := c }) := by
  induction l with
  | nil => rfl
  | cons x xs ih =>
    by_cases hx : x.questionId = qid
    · simp [updateFirstAnswer, List.find?_cons, hx]
    · rw [updateFirstAnswer, if_neg (by simp [hx] : ¬ (x.questionId == qid) = true)]
      rw [List.find?_cons_of_neg _ (by simp [hx]),
          List.find?_cons_of_neg _ (by simp [hx])]
      exact ih


/-- C8: for a phone number that already has a stored registration, a second
`POST /api/registrations` with that phone number returns status 400 and
leaves the database unchanged (both when the duplicate check fires and
when validation already failed), so phone numbers stay unique across
registrations. -/
theorem duplicate_registration_rejected (db : DB) (req : RegRequest)
    (now newRid : Nat) (r : Registration)
    (hdup : findRegistration db req.phoneNumber = some r) :
    (postRegistration db req now newRid).code = 400 ∧
    (postRegistration db req now newRid).db = db := by
  unfold postRegistration
  by_cases hv : req.validationOk
  · simp [hv, hdup]
  · simp [hv]

/-- A duplicate registration request for the phone number of `sampleReg`. -/
def dupReq : RegRequest :=
  ⟨"Ada Obi", "Female", "08031234567", none, none, true, true, true⟩

/-- Database holding the one registration `dupReq` duplicates. -/
def regDB : DB := ⟨[sampleReg], [], []⟩

theorem duplicate_registration_rejected_witness :
    (postRegistration regDB dupReq 200 2).code = 400 ∧
    (postRegistration regDB dupReq 200 2).db = regDB :=
  duplicate_registration_rejected regDB dupReq 200 2 sampleReg rfl

/-- An active session in which one of two attached questions has been
answered (correctly) and the other is still unanswered. -/
def halfDoneSession : QuizSession :=
  ⟨1, "08031234567", "Ada Obi", "", 0, 1200000,
   [⟨1, some 0, true⟩, ⟨2, none, false⟩], 0, 2, .active, none, none⟩

/-- Database holding `halfDoneSession` and its two questions. -/
def halfDoneDB : DB :=
  ⟨[sampleReg], [sampleQuestionA, sampleQuestionB], [halfDoneSession]⟩

/-- C1 counterexample: `halfDoneSession` has M = 1 answered entry (and N = 1
correct one) out of 2 attached entries, yet submitting the quiz stores
`score = 1` together with `totalQuestions = 2`, not the claimed
`totalQuestions = M = 1`: `completeQuizSession` never touches
`totalQuestions`, which stays the full question-set size fixed at start. -/
theorem quiz_scoring_counterexample :
    answeredCount halfDoneSession.answers = 1 ∧
    countCorrect halfDoneSession.answers = 1 ∧
    (submitQuiz halfDoneDB 1 700000).db.sessions.map
        (fun s => (s.score, s.totalQuestions)) = [(1, 2)] := by
  decide

/-- C1 (amended): completing a session through `completeQuizSession` (the
helper behind both `POST /api/quiz/submit` and the timeout path of
`GET /api/quiz/session/:phoneNumber`) stores `score` = the number of
answer entries with `isCorrect` true, and leaves `totalQuestions` (and the
answer entries) unchanged from the value fixed at session start, which is
the size of the attached question set rather than the number of answered
entries; the results endpoints then report `percentage` =
`score / totalQuestions * 100` rounded to two decimals via `toFixed(2)`. -/
theorem quiz_completion_scoring (db : DB) (sid : Nat) (st : SessionStatus)
    (now : Nat) (s : QuizSession) (h : findSessionById db sid = some s) :
    (completeQuizSession db sid st now).1 = some (completeSession s st now) ∧
    findSessionById (completeQuizSession db sid st now).2 sid
      = some (completeSession s st now) ∧
    (completeSession s st now).score = countCorrect s.answers ∧
    (completeSession s st now).totalQuestions = s.totalQuestions ∧
    (completeSession s st now).answers = s.answers ∧
    (resultEntryJson (completeSession s st now)).lookup "percentage"
      = some (.str (toFixed2Percent (countCorrect s.answers) s.totalQuestions)) := by
  have hsid : (completeSession s st now).sid = sid := by
    have hp := List.find?_some h
    simpa [beq_iff_eq, completeSession] using hp
  refine ⟨?_, ?_, rfl, rfl, rfl, rfl⟩
  · unfold completeQuizSession
    rw [h]
  · unfold completeQuizSession
    rw [h]
    exact findSessionById_updateSession db sid (completeSession s st now) hsid s h

theorem quiz_completion_scoring_witness :
    (completeQuizSession halfDoneDB 1 .completed 700000).1
      = some (completeSession halfDoneSession .completed 700000) ∧
    findSessionById (completeQuizSession halfDoneDB 1 .completed 700000).2 1
      = some (completeSession halfDoneSession .completed 700000) ∧
    (completeSession halfDoneSession .completed 700000).score
      = countCorrect halfDoneSession.answers ∧
    (completeSession halfDoneSession .completed 700000).totalQuestions
      = halfDoneSession.totalQuestions ∧
    (completeSession halfDoneSession .completed 700000).answers
      = halfDoneSession.answers ∧
    (resultEntryJson (completeSession halfDoneSession .completed 700000)).lookup "percentage"
      = some (.str (toFixed2Percent (countCorrect halfDoneSession.answers)
          halfDoneSession.totalQuestions)) :=
  quiz_completion_scoring halfDoneDB 1 .completed 700000 halfDoneSession rfl

/-- A session that finished long ago (status completed) whose elapsed time
since `startTime` is far past the 20-minute allowance. -/
def expiredCompletedSession : QuizSession :=
  ⟨3, "08031234567", "Ada Obi", "", 0, 1200000,
   [⟨1, some 1, false⟩], 0, 1, .completed, some 600000, some 600000⟩

/-- Database holding only `expiredCompletedSession`. -/
def staleDB : DB := ⟨[sampleReg], [sampleQuestionA], [expiredCompletedSession]⟩

/-- C3 counterexample: `expiredCompletedSession` has elapsed time
2,000,000 ms > 1,200,000 ms at read time, yet the session read leaves its
status `completed` and the database unchanged — the handler only
transitions sessions whose status is still `active`, not every session
past the deadline. -/
theorem session_read_timeout_counterexample :
    expiredCompletedSession.startTime + 1200000 < 2000000 ∧
    (getQuizSession staleDB "08031234567" 2000000).db.sessions.map
        (fun s => s.status) = [SessionStatus.completed] ∧
    (getQuizSession staleDB "08031234567" 2000000).db = staleDB := by
  decide

/-- C3 (amended): a `GET /api/quiz/session/:phoneNumber` read of a session
whose status is still `active` and whose elapsed time since `startTime`
exceeds 1,200,000 ms completes that session with status `timeout`
(recomputing its score and stamping completion time and duration) and
reports `status: "timeout"` in the response; already-terminal sessions are
left as they are. -/
theorem session_read_timeout (db : DB) (phone : String) (now : Nat)
    (s : QuizSession) (hdist : distinctSids db)
    (hfind : findSessionByPhone db phone = some s)
    (hactive : s.status = .active)
    (helapsed : s.startTime + 1200000 < now) :
    findSessionById (getQuizSession db phone now).db s.sid
      = some (completeSession s .timeout now) ∧
    (completeSession s .timeout now).status = .timeout ∧
    (getQuizSession db phone now).body.lookup "status"
      = some (.str "timeout") := by
  have hmem := List.mem_of_find?_eq_some hfind
  have hid : findSessionById db s.sid = some s :=
    findSessionById_of_mem db s hdist hmem
  have hcond : (max 0 (1200000 - ((now : Int) - (s.startTime : Int)))) ≤ 0 := by
    rw [max_le_iff]
    exact ⟨le_refl 0, by omega⟩
  unfold getQuizSession
  rw [hfind]
  dsimp only
  rw [if_pos ⟨hcond, hactive⟩]
  unfold completeQuizSession
  rw [hid]
  dsimp only
  refine ⟨?_, rfl, rfl⟩
  exact findSessionById_updateSession db s.sid (completeSession s .timeout now) rfl s hid

/-- An active session whose 20 minutes have long expired. -/
def expiredActiveSession : QuizSession :=
  ⟨4, "08031234567", "Ada Obi", "", 0, 1200000,
   [⟨1, some 0, true⟩], 0, 1, .active, none, none⟩

/-- Database holding only `expiredActiveSession`. -/
def activeStaleDB : DB := ⟨[sampleReg], [sampleQuestionA], [expiredActiveSession]⟩

theorem session_read_timeout_witness :
    findSessionById (getQuizSession activeStaleDB "08031234567" 2000000).db
        expiredActiveSession.sid
      = some (completeSession expiredActiveSession .timeout 2000000) ∧
    (completeSession expiredActiveSession .timeout 2000000).status = .timeout ∧
    (getQuizSession activeStaleDB "08031234567" 2000000).body.lookup "status"
      = some (.str "timeout") :=
  session_read_timeout activeStaleDB "08031234567" 2000000 expiredActiveSession
    (by simp [distinctSids, activeStaleDB]) rfl rfl (by decide)

/-- A session that already timed out, with its original completion stamps. -/
def timedOutSession : QuizSession :=
  ⟨5, "07011112222", "Bola Ade", "", 0, 1200000,
   [⟨1, some 0, true⟩], 1, 1, .timeout, some 1300000, some 1300000⟩

/-- Database holding only `timedOutSession`. -/
def terminalDB : DB := ⟨[], [sampleQuestionA], [timedOutSession]⟩

/-- C4 counterexample: `timedOutSession` is terminal (status `timeout`,
completed at 1,300,000), yet `POST /api/quiz/submit` on it runs
`completeQuizSession(. , "completed")` anyway, flipping its status to
`completed` and overwriting `completedAt` (and `timeTaken`) — terminal
sessions are not immutable. -/
theorem terminal_immutable_counterexample :
    timedOutSession.status = .timeout ∧
    timedOutSession.completedAt = some 1300000 ∧
    (submitQuiz terminalDB 5 1500000).db.sessions.map
        (fun s => (s.status, s.completedAt))
      = [(SessionStatus.completed, some 1500000)] := by
  decide

/-- C4 (amended): session reads and answer submissions never change a
terminal session — a read of a terminal session leaves the database
untouched and an answer submission is rejected with 400 — but
`POST /api/quiz/submit` re-runs completion on a session of any status,
setting status to `completed`, recomputing the score and overwriting
`completedAt` and `timeTaken`. -/
theorem terminal_session_mutability (db : DB) (now : Nat) :
    (∀ phone s, findSessionByPhone db phone = some s →
      isTerminal s.status = true →
      (getQuizSession db phone now).db = db) ∧
    (∀ sid qid sel s, findSessionById db sid = some s →
      isTerminal s.status = true →
      (submitAnswer db sid qid sel).code = 400 ∧
      (submitAnswer db sid qid sel).db = db) ∧
    (∀ sid s, findSessionById db sid = some s →
      (submitQuiz db sid now).code = 200 ∧
      findSessionById (submitQuiz db sid now).db sid
        = some (completeSession s .completed now) ∧
      (completeSession s .completed now).status = .completed ∧
      (completeSession s .completed now).completedAt = some now ∧
      (completeSession s .completed now).timeTaken = some (now - s.startTime)) := by
  have hnotactive : ∀ s : QuizSession, isTerminal s.status = true →
      ¬ s.status = SessionStatus.active := by
    intro s hterm hact
    rw [hact] at hterm
    simp [isTerminal] at hterm
  refine ⟨?_, ?_, ?_⟩
  · intro phone s hfind hterm
    unfold getQuizSession
    rw [hfind]
    dsimp only
    rw [if_neg (fun hc => hnotactive s hterm hc.2)]
  · intro sid qid sel s hfind hterm
    unfold submitAnswer
    rw [hfind]
    dsimp only
    rw [if_pos (hnotactive s hterm)]
    exact ⟨rfl, rfl⟩
  · intro sid s hfind
    have hsid : (completeSession s .completed now).sid = sid := by
      have hp := List.find?_some hfind
      simpa [beq_iff_eq, completeSession] using hp
    unfold submitQuiz completeQuizSession
    rw [hfind]
    dsimp only
    exact ⟨rfl,
      findSessionById_updateSession db sid (completeSession s .completed now) hsid s hfind,
      rfl, rfl, rfl⟩

theorem terminal_session_mutability_witness :
    (getQuizSession terminalDB "07011112222" 1500000).db = terminalDB ∧
    ((submitAnswer terminalDB 5 1 0).code = 400 ∧
      (submitAnswer terminalDB 5 1 0).db = terminalDB) ∧
    ((submitQuiz terminalDB 5 1500000).code = 200 ∧
      findSessionById (submitQuiz terminalDB 5 1500000).db 5
        = some (completeSession timedOutSession .completed 1500000) ∧
      (completeSession timedOutSession .completed 1500000).status = .completed ∧
      (completeSession timedOutSession .completed 1500000).completedAt = some 1500000 ∧
      (completeSession timedOutSession .completed 1500000).timeTaken
        = some (1500000 - timedOutSession.startTime)) :=
  ⟨(terminal_session_mutability terminalDB 1500000).1 "07011112222" timedOutSession rfl rfl,
   (terminal_session_mutability terminalDB 1500000).2.1 5 1 0 timedOutSession rfl rfl,
   (terminal_session_mutability terminalDB 1500000).2.2 5 timedOutSession rfl⟩

/-- An active session holding one unanswered question. -/
def activeQuizSession : QuizSession :=
  ⟨10, "08031234567", "Ada Obi", "", 0, 1200000,
   [⟨1, none, false⟩], 0, 1, .active, none, none⟩

/-- Database in which question 1 has correct index 0. -/
def dbAnswerZero : DB := ⟨[sampleReg], [sampleQuestionA], [activeQuizSession]⟩

/-- The same database except that question 1 has correct index 1. -/
def dbAnswerOne : DB :=
  ⟨[sampleReg], [{ sampleQuestionA with correctAnswer := 1 }], [activeQuizSession]⟩

/-- Path at which the stored correct answer shows through the response of
`GET /api/quiz/questions/:sessionId`: the populated `session` object
embeds each referenced question in full,
`session.answers[0].questionId.correctAnswer`. -/
def correctAnswerLeak (r : Reply) : Option Json :=
  ((((r.body.lookup "session").bind (fun j => j.lookup "answers")).bind
      (fun j => j.item? 0)).bind (fun j => j.lookup "questionId")).bind
    (fun j => j.lookup "correctAnswer")

/-- C2 counterexample: two databases identical except for the stored
`correctAnswer` of question 1 produce different bodies from
`GET /api/quiz/questions/:sessionId` on the same active session — the
`session` object returned alongside the stripped questions list embeds the
populated question documents, `correctAnswer` included, so the response is
not independent of the stored correct answers. -/
theorem quiz_questions_leak_counterexample :
    correctAnswerLeak (getQuizQuestions dbAnswerZero 10) = some (.num 0) ∧
    correctAnswerLeak (getQuizQuestions dbAnswerOne 10) = some (.num 1) ∧
    (getQuizQuestions dbAnswerZero 10).body ≠ (getQuizQuestions dbAnswerOne 10).body := by
  refine ⟨rfl, rfl, ?_⟩
  intro h
  have hleak : (some (Json.num 0) : Option Json) = some (Json.num 1) := by
    have hA : correctAnswerLeak (getQuizQuestions dbAnswerZero 10)
        = some (Json.num 0) := rfl
    have hB : correctAnswerLeak (getQuizQuestions dbAnswerOne 10)
        = some (Json.num 1) := rfl
    rw [← hA, ← hB]
    unfold correctAnswerLeak
    rw [h]
  simp at hleak

/-- C2 (amended): the `questions` array of the response of
`GET /api/quiz/questions/:sessionId` carries no correct-answer data — it
is unchanged under any rewrite of the stored `correctAnswer` fields — but
the `session` object returned alongside it leaks the stored correct
answers through its populated question documents. -/
theorem quiz_questions_list_stripped (db : DB) (f : Nat → Int) (sid : Nat) :
    (getQuizQuestions
        { db with questions :=
            db.questions.map (fun q => { q with correctAnswer := f q.qid }) }
        sid).body.lookup "questions"
      = (getQuizQuestions db sid).body.lookup "questions" := by
  have hview : ∀ a, questionView
      { db with questions :=
          db.questions.map (fun q => { q with correctAnswer := f q.qid }) } a
      = questionView db a := by
    intro a
    unfold questionView findQuestion
    dsimp only
    rw [List.find?_map]
    rw [show ((fun q : Question => q.qid == a.questionId)
          ∘ (fun q => { q with correctAnswer := f q.qid }))
        = (fun q : Question => q.qid == a.questionId) from rfl]
    cases db.questions.find? (fun q => q.qid == a.questionId) <;> rfl
  have hfind : findSessionById
      { db with questions :=
          db.questions.map (fun q => { q with correctAnswer := f q.qid }) } sid
      = findSessionById db sid := rfl
  unfold getQuizQuestions
  rw [hfind]
  cases h : findSessionById db sid with
  | none => rfl
  | some s =>
    dsimp only
    by_cases hst : s.status ≠ SessionStatus.active
    · rw [if_pos hst, if_pos hst]
      rfl
    · rw [if_neg hst, if_neg hst]
      rw [show questionView
          { db with questions :=
              db.questions.map (fun q => { q with correctAnswer := f q.qid }) }
          = questionView db from funext hview]
      cases s.answers.mapM (questionView db) <;> rfl

/-- The one-session-per-phone invariant assumed by the start-idempotence
theorem is maintained by `POST /api/quiz/start`, the only operation that
creates sessions: a session is appended only when the phone number has
neither a terminal nor an active session, and the three statuses are
exhaustive. -/
theorem startQuiz_preserves_distinctPhones (db : DB) (phone : String)
    (now : Nat) (shuffled : List Question) (newSid : Nat)
    (hdist : distinctPhones db) :
    distinctPhones (startQuiz db phone now shuffled newSid).db := by
  unfold startQuiz
  cases hr : findRegistration db phone with
  | none => exact hdist
  | some reg =>
    dsimp only
    cases ht : findTerminalByPhone db phone with
    | some t => exact hdist
    | none =>
      dsimp only
      cases ha : findActiveByPhone db phone with
      | some a => exact hdist
      | none =>
        dsimp only
        unfold distinctPhones at hdist ⊢
        dsimp only
        rw [List.pairwise_append]
        refine ⟨hdist, List.pairwise_singleton _ _, ?_⟩
        intro a hmem b hb
        rw [List.mem_singleton] at hb
        subst hb
        intro heq
        have hterm := List.find?_eq_none.mp ht a hmem
        have hact := List.find?_eq_none.mp ha a hmem
        cases hstatus : a.status with
        | active => simp [heq, hstatus] at hact
        | completed => simp [heq, hstatus, isTerminal] at hterm
        | timeout => simp [heq, hstatus, isTerminal] at hterm

/-- C5: for a registered phone number, starting the quiz while an active
session exists (and, per the one-session-per-phone invariant, no terminal
one) resumes: 200 with the same stored session and no change to the
database; starting once a terminal (completed or timeout) session exists
returns 400, also changing nothing. -/
theorem quiz_start_idempotent (db : DB) (phone : String) (now : Nat)
    (shuffled : List Question) (newSid : Nat) (reg : Registration)
    (hreg : findRegistration db phone = some reg)
    (hdist : distinctPhones db) :
    (∀ s, findActiveByPhone db phone = some s →
      (startQuiz db phone now shuffled newSid).code = 200 ∧
      (startQuiz db phone now shuffled newSid).body.lookup "session"
        = some (sessionToJson s) ∧
      (startQuiz db phone now shuffled newSid).db = db) ∧
    (∀ s, findTerminalByPhone db phone = some s →
      (startQuiz db phone now shuffled newSid).code = 400 ∧
      (startQuiz db phone now shuffled newSid).db = db) := by
  constructor
  · intro s hs
    have hterm : findTerminalByPhone db phone = none :=
      no_terminal_of_active db phone hdist s hs
    unfold startQuiz
    rw [hreg, hterm, hs]
    exact ⟨rfl, rfl, rfl⟩
  · intro s hs
    unfold startQuiz
    rw [hreg, hs]
    exact ⟨rfl, rfl⟩

theorem quiz_start_idempotent_witness :
    ((startQuiz activeStaleDB "08031234567" 5 [] 9).code = 200 ∧
      (startQuiz activeStaleDB "08031234567" 5 [] 9).body.lookup "session"
        = some (sessionToJson expiredActiveSession) ∧
      (startQuiz activeStaleDB "08031234567" 5 [] 9).db = activeStaleDB) ∧
    ((startQuiz staleDB "08031234567" 5 [] 9).code = 400 ∧
      (startQuiz staleDB "08031234567" 5 [] 9).db = staleDB) :=
  ⟨(quiz_start_idempotent activeStaleDB "08031234567" 5 [] 9 sampleReg rfl
      (by simp [distinctPhones, activeStaleDB])).1 expiredActiveSession rfl,
   (quiz_start_idempotent staleDB "08031234567" 5 [] 9 sampleReg rfl
      (by simp [distinctPhones, staleDB])).2 expiredCompletedSession rfl⟩

/-- C6: `POST /api/quiz/answer` rejects exactly when the session does not
exist (404, database untouched), the session is not active (400), or the
question id is not among the session answer entries (400); in every other
case — assuming the invariant that session entries reference stored
questions, which session creation guarantees — the answer is accepted
(200) and recorded.  The handler never reads the clock, so acceptance is
independent of how much time has elapsed since `startTime`. -/
theorem quiz_answer_rejection (db : DB) (sid qid : Nat) (sel : Int) :
    (findSessionById db sid = none →
      (submitAnswer db sid qid sel).code = 404 ∧
      (submitAnswer db sid qid sel).db = db) ∧
    (∀ s, findSessionById db sid = some s → s.status ≠ .active →
      (submitAnswer db sid qid sel).code = 400 ∧
      (submitAnswer db sid qid sel).db = db) ∧
    (∀ s, findSessionById db sid = some s → s.status = .active →
      s.answers.any (fun a => a.questionId == qid) = false →
      (submitAnswer db sid qid sel).code = 400 ∧
      (submitAnswer db sid qid sel).db = db) ∧
    (∀ s, findSessionById db sid = some s → s.status = .active →
      s.answers.any (fun a => a.questionId == qid) = true →
      sessionRefsExist db s →
      ∃ q, findQuestion db qid = some q ∧
        (submitAnswer db sid qid sel).code = 200 ∧
        findSessionById (submitAnswer db sid qid sel).db sid
          = some { s with answers :=
              updateFirstAnswer s.answers qid sel (sel == q.correctAnswer) }) := by
  refine ⟨?_, ?_, ?_, ?_⟩
  · intro hnone
    unfold submitAnswer
    rw [hnone]
    exact ⟨rfl, rfl⟩
  · intro s hfind hst
    unfold submitAnswer
    rw [hfind]
    dsimp only
    rw [if_pos hst]
    exact ⟨rfl, rfl⟩
  · intro s hfind hst hnotin
    unfold submitAnswer
    rw [hfind]
    dsimp only
    rw [if_neg (by simp [hst]), if_pos (by simp [hnotin])]
    exact ⟨rfl, rfl⟩
  · intro s hfind hst hany hrefs
    have hin := hany
    rw [List.any_eq_true] at hin
    obtain ⟨a, hamem, haq⟩ := hin
    have haqid : a.questionId = qid := by simpa using haq
    have hqsome : (findQuestion db qid).isSome := by
      have hr := hrefs a hamem
      rwa [haqid] at hr
    obtain ⟨q, hq⟩ := Option.isSome_iff_exists.mp hqsome
    have hsid : s.sid = sid := by
      have hp := List.find?_some hfind
      simpa [beq_iff_eq] using hp
    refine ⟨q, hq, ?_, ?_⟩
    · unfold submitAnswer
      rw [hfind]
      dsimp only
      rw [if_neg (by simp [hst]), if_neg (by simp [hany]), hq]
    · unfold submitAnswer
      rw [hfind]
      dsimp only
      rw [if_neg (by simp [hst]), if_neg (by simp [hany]), hq]
      dsimp only
      exact findSessionById_updateSession db sid
        { s with answers := updateFirstAnswer s.answers qid sel (sel == q.correctAnswer) }
        hsid s hfind

theorem quiz_answer_rejection_witness :
    ∃ q, findQuestion dbAnswerZero 1 = some q ∧
      (submitAnswer dbAnswerZero 10 1 0).code = 200 ∧
      findSessionById (submitAnswer dbAnswerZero 10 1 0).db 10
        = some { activeQuizSession with
            answers := updateFirstAnswer activeQuizSession.answers 1 0
              ((0 : Int) == q.correctAnswer) } :=
  (quiz_answer_rejection dbAnswerZero 10 1 0).2.2.2 activeQuizSession rfl rfl rfl
    (by unfold sessionRefsExist; decide)

/-- C7: for an active session and a question among its entries, the answer
endpoint reports `isCorrect` true exactly when the submitted index equals
the stored `correctAnswer` of that question and false for any other index,
and it stores the same flag (with the selected index) in the first
matching answer entry of the session. -/
theorem quiz_answer_grading (db : DB) (sid qid : Nat) (sel : Int)
    (s : QuizSession) (q : Question)
    (hfind : findSessionById db sid = some s)
    (hactive : s.status = .active)
    (hany : s.answers.any (fun a => a.questionId == qid) = true)
    (hq : findQuestion db qid = some q) :
    (submitAnswer db sid qid sel).body.lookup "isCorrect"
      = some (.bool (sel == q.correctAnswer)) ∧
    ((sel == q.correctAnswer) = true ↔ sel = q.correctAnswer) ∧
    findSessionById (submitAnswer db sid qid sel).db sid
      = some { s with answers :=
          updateFirstAnswer s.answers qid sel (sel == q.correctAnswer) } ∧
    (updateFirstAnswer s.answers qid sel (sel == q.correctAnswer)).find?
        (fun a => a.questionId == qid)
      = (s.answers.find? (fun a => a.questionId == qid)).map
          (fun a => { a with selectedAnswer := some sel,
                             isCorrect := (sel == q.correctAnswer) }) := by
  have hsid : s.sid = sid := by
    have hp := List.find?_some hfind
    simpa [beq_iff_eq] using hp
  refine ⟨?_, beq_iff_eq, ?_,
    find?_updateFirstAnswer s.answers qid sel (sel == q.correctAnswer)⟩
  · unfold submitAnswer
    rw [hfind]
    dsimp only
    rw [if_neg (by simp [hactive]), if_neg (by simp [hany]), hq]
    rfl
  · unfold submitAnswer
    rw [hfind]
    dsimp only
    rw [if_neg (by simp [hactive]), if_neg (by simp [hany]), hq]
    dsimp only
    exact findSessionById_updateSession db sid
      { s with answers := updateFirstAnswer s.answers qid sel (sel == q.correctAnswer) }
      hsid s hfind

theorem quiz_answer_grading_witness :
    (submitAnswer dbAnswerZero 10 1 0).body.lookup "isCorrect"
      = some (.bool ((0 : Int) == sampleQuestionA.correctAnswer)) ∧
    (((0 : Int) == sampleQuestionA.correctAnswer) = true
      ↔ (0 : Int) = sampleQuestionA.correctAnswer) ∧
    findSessionById (submitAnswer dbAnswerZero 10 1 0).db 10
      = some { activeQuizSession with
          answers := updateFirstAnswer activeQuizSession.answers 1 0
            ((0 : Int) == sampleQuestionA.correctAnswer) } ∧
    (updateFirstAnswer activeQuizSession.answers 1 0
        ((0 : Int) == sampleQuestionA.correctAnswer)).find?
        (fun a => a.questionId == 1)
      = (activeQuizSession.answers.find? (fun a => a.questionId == 1)).map
          (fun a => { a with selectedAnswer := some (0 : Int),
                             isCorrect := ((0 : Int) == sampleQuestionA.correctAnswer) }) :=
  quiz_answer_grading dbAnswerZero 10 1 0 activeQuizSession sampleQuestionA
    rfl rfl rfl rfl

/-- C9 counterexample: the health check body is `{ status: "Server is
running!" }` and carries no `success` field at all, so not every route
returns the `{success, ...}` envelope. -/
theorem health_missing_success :
    hasBoolSuccess (handle emptyDB 0 .health).body = false := rfl

/-- C9 (amended): every modelled API endpoint of both server variants
wraps its JSON body in the `{success: bool, ...}` envelope; the single
exception is `GET /health`, whose body is only `{status}`. -/
theorem api_envelope_success (db : DB) (now : Nat) (r : Route) (h : r ≠ .health)
    (hc hv : Bool) (send : BulkMail.Recipient → BulkMail.SendOutcome)
    (req : BulkMail.BulkRequest) (logs : List BulkMail.EmailLogDoc)
    (es : Option String) (eu : String) (shost : Option String) :
    hasBoolSuccess (handle db now r).body = true ∧
    hasBoolSuccess (BulkMail.sendBulkEmail hc hv send req now).body = true ∧
    hasBoolSuccess (BulkMail.getEmailLogs logs).body = true ∧
    hasBoolSuccess (BulkMail.testEmailConfig hc hv es eu shost).body = true := by
  refine ⟨?_, ?_, ?_, ?_⟩
  · cases r with
    | health => exact absurd rfl h
    | listRegistrations => rfl
    | login phone =>
      show hasBoolSuccess (loginByPhone db phone).body = true
      unfold loginByPhone
      cases findRegistration db phone <;> rfl
    | getRegistration rid =>
      show hasBoolSuccess (getRegistration db rid).body = true
      unfold getRegistration
      cases findRegistrationById db rid <;> rfl
    | postRegistration rq newRid =>
      show hasBoolSuccess (postRegistration db rq now newRid).body = true
      unfold postRegistration
      split
      · rfl
      · cases findRegistration db rq.phoneNumber <;> rfl
    | putRegistration rid rq =>
      show hasBoolSuccess (putRegistration db rid rq).body = true
      unfold putRegistration
      split
      · rfl
      · cases findRegistrationById db rid <;> rfl
    | deleteRegistration rid =>
      show hasBoolSuccess (deleteRegistration db rid).body = true
      unfold deleteRegistration
      cases findRegistrationById db rid <;> rfl
    | quizSession phone =>
      show hasBoolSuccess (getQuizSession db phone now).body = true
      unfold getQuizSession
      cases findSessionByPhone db phone with
      | none => rfl
      | some s =>
        dsimp only
        split <;> rfl
    | quizStart phone shuffled newSid =>
      show hasBoolSuccess (startQuiz db phone now shuffled newSid).body = true
      unfold startQuiz
      cases findRegistration db phone with
      | none => rfl
      | some reg =>
        cases findTerminalByPhone db phone with
        | some t => rfl
        | none => cases findActiveByPhone db phone <;> rfl
    | quizQuestions sid =>
      show hasBoolSuccess (getQuizQuestions db sid).body = true
      unfold getQuizQuestions
      cases findSessionById db sid with
      | none => rfl
      | some s =>
        dsimp only
        split
        · rfl
        · cases s.answers.mapM (questionView db) <;> rfl
    | quizAnswer sid qid sel =>
      show hasBoolSuccess (submitAnswer db sid qid sel).body = true
      unfold submitAnswer
      cases findSessionById db sid with
      | none => rfl
      | some s =>
        dsimp only
        split
        · rfl
        · split
          · rfl
          · cases findQuestion db qid <;> rfl
    | quizSubmit sid =>
      show hasBoolSuccess (submitQuiz db sid now).body = true
      unfold submitQuiz
      obtain ⟨o, db'⟩ := completeQuizSession db sid .completed now
      cases o <;> rfl
    | quizResults => rfl
    | quizResult phone =>
      show hasBoolSuccess (getQuizResult db phone).body = true
      unfold getQuizResult
      cases findTerminalByPhone db phone with
      | none => rfl
      | some t =>
        dsimp only
        cases t.answers.mapM (fun a =>
          (findQuestion db a.questionId).map (fun q =>
            Json.obj [("question", .str q.question),
                      ("options", .arr (q.options.map .str)),
                      ("correctAnswer", .num q.correctAnswer),
                      ("selectedAnswer", optJson .num a.selectedAnswer),
                      ("isCorrect", .bool a.isCorrect)])) <;> rfl
  · unfold BulkMail.sendBulkEmail
    split
    · rfl
    · split
      · rfl
      · split
        · rfl
        · dsimp only
          split
          · rfl
          · split <;> rfl
  · rfl
  · unfold BulkMail.testEmailConfig
    split
    · rfl
    · split <;> rfl

theorem api_envelope_success_witness :
    hasBoolSuccess (handle emptyDB 0 .quizResults).body = true ∧
    hasBoolSuccess (BulkMail.sendBulkEmail true true
      (fun _ => .failed "connection refused")
      ⟨"Update", "Hello", [⟨"a@example.com", "A", none⟩], true⟩ 0).body = true ∧
    hasBoolSuccess (BulkMail.getEmailLogs []).body = true ∧
    hasBoolSuccess (BulkMail.testEmailConfig true true none "u" none).body = true :=
  api_envelope_success emptyDB 0 .quizResults (by decide) true true
    (fun _ => .failed "connection refused")
    ⟨"Update", "Hello", [⟨"a@example.com", "A", none⟩], true⟩ [] none "u" none

end QuizApp
